import Mathlib

/-!
# SetsudenNow: the configuration header `PrivateSettings.h`

The repository's only source file is a C/Arduino header that declares one
byte array and six object-like preprocessor definitions.  This development
embeds it twice:

* `PrivateSettings_h` is the text of the header, line by line, read by a small
  model of the C translation phases that the header exercises (line comments,
  `#define` of an object-like name, string and integer literals, a `byte`
  array declaration with a brace initializer);
* `macAddress`, `STEWITTER_TOKEN`, ... are the values the header gives,
  written out directly under the names the source uses.

The theorems relate the two and state the properties of the shipped values.
-/

namespace SetsudenNow

/-! ## The header text -/

/-- The text of `SetsudenNow/PrivateSettings.h`, one entry per source line.
Inside the entries a double quote is written with a backslash before it, an
opening brace is written `\x7b` and a closing brace `\x7d`. -/
def PrivateSettings_h : List String :=
  [ "",
    "// NOTE",
    "// Before uploading to your Arduino board,",
    "// please replace with your own settings",
    "",
    "",
    "",
    "//****** REQUIRED to replace ******/",
    "",
    "// (1) Mac address of your Ethernet Shield",
    "byte macAddress[] = \x7b0x00, 0x00, 0x00, 0x00, 0x00, 0x00\x7d;",
    "",
    "// (2) The stweitter token",
    "#define STEWITTER_TOKEN \"AAAAAAAAAAAAAAAAAAAAAAAAAAAAAAAAA\"",
    "",
    "// (3) Your Pachube API key (a public secure key is recommended)",
    "#define PACHUBE_API_KEY \"AAAAAAAAAAAAAAAAAAAAAAAAAAAAAAAAAAAAAAAAAAAA\"",
    "",
    "// (4) The Pachube environment ID of your feed",
    "#define PACHUBE_ENVIRONMENT_ID 0",
    "",
    "",
    "",
    "//****** OPTIONAL to replace ******/",
    "",
    "// Update interval in minutes for Pachube",
    "#define UPDATE_INTERVAL_IN_MINUTE 5",
    "",
    "// Your usual daily electricity consumption(in Wh, Japanese average is about 10000 - 12000)",
    "#define USUAL_CONSUMPTION 12000",
    "",
    "// Time difference with UTC(In Japan, use 9)",
    "#define TIME_ZONE_OFFSET 9" ]

/-! ## The values, as the header gives them -/

/-- `byte macAddress[] = {0x00, 0x00, 0x00, 0x00, 0x00, 0x00};` -/
def macAddress : List Nat := [0x00, 0x00, 0x00, 0x00, 0x00, 0x00]

/-- `#define STEWITTER_TOKEN "AAAAAAAAAAAAAAAAAAAAAAAAAAAAAAAAA"` -/
def STEWITTER_TOKEN : String := "AAAAAAAAAAAAAAAAAAAAAAAAAAAAAAAAA"

/-- `#define PACHUBE_API_KEY "AAAAAAAAAAAAAAAAAAAAAAAAAAAAAAAAAAAAAAAAAAAA"` -/
def PACHUBE_API_KEY : String := "AAAAAAAAAAAAAAAAAAAAAAAAAAAAAAAAAAAAAAAAAAAA"

/-- `#define PACHUBE_ENVIRONMENT_ID 0` -/
def PACHUBE_ENVIRONMENT_ID : Int := 0

/-- `#define UPDATE_INTERVAL_IN_MINUTE 5` -/
def UPDATE_INTERVAL_IN_MINUTE : Int := 5

/-- `#define USUAL_CONSUMPTION 12000` -/
def USUAL_CONSUMPTION : Int := 12000

/-- `#define TIME_ZONE_OFFSET 9` -/
def TIME_ZONE_OFFSET : Int := 9

/-! ## Reading the header: characters and comments -/

/-- The double quote character. -/
def dquote : Char := Char.ofNat 34

/-- The backslash character. -/
def backslash : Char := Char.ofNat 92

/-- The opening brace character. -/
def lbrace : Char := Char.ofNat 123

/-- The closing brace character. -/
def rbrace : Char := Char.ofNat 125

/-- Horizontal white space: space or tab. -/
def isBlank (c : Char) : Bool := c == ' ' || c == Char.ofNat 9

/-- A character that may start an identifier. -/
def isIdentStart (c : Char) : Bool := c.isAlpha || c == '_'

/-- A character that may continue an identifier. -/
def isIdentChar (c : Char) : Bool := c.isAlphanum || c == '_'

/-- Remove leading white space. -/
def dropBlanks : List Char → List Char
  | [] => []
  | c :: cs => if isBlank c then dropBlanks cs else c :: cs

/-- Remove trailing white space. -/
def dropTrailingBlanks (cs : List Char) : List Char :=
  (dropBlanks cs.reverse).reverse

/-- Remove white space at both ends. -/
def trimBlanks (cs : List Char) : List Char :=
  dropTrailingBlanks (dropBlanks cs)

/-- Cut a `//` comment off a line.  The flag says whether the scan is inside
a string literal, where `//` does not start a comment and a backslash takes
the next character with it. -/
def stripLineComment : Bool → List Char → List Char
  | _, [] => []
  | _, [c] => [c]
  | false, c :: d :: cs =>
    if c == '/' && d == '/' then []
    else if c == dquote then c :: stripLineComment true (d :: cs)
    else c :: stripLineComment false (d :: cs)
  | true, c :: d :: cs =>
    if c == backslash then c :: d :: stripLineComment true cs
    else if c == dquote then c :: stripLineComment false (d :: cs)
    else c :: stripLineComment true (d :: cs)

/-! ## Reading the header: literals -/

/-- What the replacement text of a definition, or an initializer, lexes as. -/
inductive Literal where
  /-- A string literal, with the characters between its quotes. -/
  | string (contents : String)
  /-- An integer literal (decimal, octal or hexadecimal), with its value. -/
  | integer (value : Nat)
  /-- Anything else, kept as text. -/
  | other (text : String)
  deriving DecidableEq, Repr

/-- The value of a digit character in a base up to 16, if it is one. -/
def digitValue (base : Nat) (c : Char) : Option Nat :=
  let v : Option Nat :=
    if c.isDigit then some (c.toNat - 48)
    else if 97 ≤ c.toNat ∧ c.toNat ≤ 102 then some (c.toNat - 87)
    else if 65 ≤ c.toNat ∧ c.toNat ≤ 70 then some (c.toNat - 55)
    else none
  match v with
  | some d => if d < base then some d else none
  | none => none

/-- Read a non-empty run of digits in the given base, most significant
first, on top of the value read so far. -/
def readDigits (base : Nat) : Nat → List Char → Option Nat
  | _, [] => none
  | acc, [c] => (digitValue base c).map (fun d => acc * base + d)
  | acc, c :: d :: cs =>
    match digitValue base c with
    | some v => readDigits base (acc * base + v) (d :: cs)
    | none => none

/-- Read an integer literal without suffix: `0x`/`0X` starts a hexadecimal
literal, another leading `0` an octal one, any other digit a decimal one. -/
def readInteger : List Char → Option Nat
  | [] => none
  | ['0'] => some 0
  | '0' :: c :: cs =>
    if c == 'x' || c == 'X' then readDigits 16 0 cs
    else readDigits 8 0 (c :: cs)
  | cs => readDigits 10 0 cs

/-- Read a string literal: a double quote, characters other than a double
quote or a backslash, and a closing double quote. -/
def readString (cs : List Char) : Option String :=
  match cs with
  | [] => none
  | q :: rest =>
    match rest.reverse with
    | [] => none
    | q2 :: revBody =>
      if q == dquote && q2 == dquote
          && revBody.all (fun c => !(c == dquote) && !(c == backslash)) then
        some (String.mk revBody.reverse)
      else none

/-- Classify a piece of text as a literal. -/
def readLiteral (cs : List Char) : Literal :=
  match readString cs with
  | some s => Literal.string s
  | none =>
    match readInteger cs with
    | some n => Literal.integer n
    | none => Literal.other (String.mk cs)

/-! ## Reading the header: `#define` lines -/

/-- Read one line as the definition of an object-like name: optional white
space, `#`, optional white space, `define`, a name, and the replacement
text up to the end of the line (comment removed, white space trimmed).
A name followed at once by `(` defines a function-like name and is not
read here. -/
def parseDefine (line : String) : Option (String × Literal) :=
  match dropBlanks (stripLineComment false line.toList) with
  | [] => none
  | h :: afterHash =>
    if h == '#' then
      let r1 := dropBlanks afterHash
      let directive := r1.takeWhile isIdentChar
      let r2 := r1.dropWhile isIdentChar
      if directive == "define".toList then
        let r3 := dropBlanks r2
        let name := r3.takeWhile isIdentChar
        let body := r3.dropWhile isIdentChar
        match name, body with
        | [], _ => none
        | n :: _, [] =>
          if isIdentStart n then some (String.mk name, Literal.other "") else none
        | n :: _, b :: _ =>
          if isIdentStart n && isBlank b then
            some (String.mk name, readLiteral (trimBlanks body))
          else none
      else none
    else none

/-- The object-like definitions of a header, in source order. -/
def defines (header : List String) : List (String × Literal) :=
  header.filterMap parseDefine

/-- The names a header introduces by `#define`, in source order. -/
def defineNames (header : List String) : List String :=
  (defines header).map Prod.fst

/-- The literal a name is defined as, if the header defines it. -/
def lookupDefine (header : List String) (name : String) : Option Literal :=
  ((defines header).find? (fun d => d.1 == name)).map Prod.snd

/-! ## Reading the header: the `byte` array -/

/-- Split a line at every occurrence of a separator. -/
def splitAt (sep : Char) : List Char → List (List Char)
  | [] => [[]]
  | c :: cs =>
    if c == sep then [] :: splitAt sep cs
    else
      match splitAt sep cs with
      | [] => [[c]]
      | first :: more => (c :: first) :: more

/-- Drop one expected character, and the white space after it. -/
def expectChar (c : Char) : List Char → Option (List Char)
  | [] => none
  | d :: cs => if d == c then some (dropBlanks cs) else none

/-- Conversion of an initializer value to the 8-bit unsigned `byte`. -/
def toByte (n : Nat) : Nat := n % 256

/-- Read the initializers between the braces: integer literals separated by
commas, each converted to `byte`. -/
def readInitializers (cs : List Char) : Option (List Nat) :=
  ((splitAt ',' cs).map (fun item => readInteger (trimBlanks item))).allSome.map
    (fun vs => vs.map toByte)

/-- Read one line as the declaration of a `byte` array of unspecified size
with a brace initializer: `byte name[] = { v, ..., v };`.  The result is the
name and the elements; the length of the array is the number of
initializers. -/
def parseByteArray (line : String) : Option (String × List Nat) :=
  let r0 := dropBlanks (stripLineComment false line.toList)
  let type := r0.takeWhile isIdentChar
  let r1 := dropBlanks (r0.dropWhile isIdentChar)
  let name := r1.takeWhile isIdentChar
  let r2 := dropBlanks (r1.dropWhile isIdentChar)
  if type == "byte".toList && (name.head?.map isIdentStart).getD false then
    match (((expectChar '[' r2).bind (expectChar ']')).bind (expectChar '=')).bind
        (expectChar lbrace) with
    | none => none
    | some afterBrace =>
      match dropBlanks afterBrace.reverse with
      | [] => none
      | semi :: revRest =>
        match dropBlanks revRest with
        | [] => none
        | rb :: revItems =>
          if semi == ';' && rb == rbrace then
            (readInitializers revItems.reverse).map (fun vs => (String.mk name, vs))
          else none
  else none

/-- The `byte` arrays a header declares, in source order. -/
def byteArrays (header : List String) : List (String × List Nat) :=
  header.filterMap parseByteArray

/-- The value of a string literal. -/
def Literal.stringValue? : Literal → Option String
  | Literal.string s => some s
  | _ => none

/-- The value of an integer literal, as an integer of the program. -/
def Literal.intValue? : Literal → Option Int
  | Literal.integer n => some (n : Int)
  | _ => none

/-- The string a name is defined as, if the header defines it as a string
literal. -/
def stringConstant (header : List String) (name : String) : Option String :=
  (lookupDefine header name).bind Literal.stringValue?

/-- The integer a name is defined as, if the header defines it as an integer
literal. -/
def integerConstant (header : List String) (name : String) : Option Int :=
  (lookupDefine header name).bind Literal.intValue?

/-- The names a header defines as integer literals, with their values, in
source order. -/
def integerConstants (header : List String) : List (String × Int) :=
  (defines header).filterMap (fun d => d.2.intValue?.map (fun v => (d.1, v)))

/-! ## The target's `int` -/

/-- Conversion of an integer to the 16-bit two's-complement `int` of the
Arduino (AVR) boards: reduction modulo `2^16` into `-32768 .. 32767`. -/
def toInt16 (v : Int) : Int := (v + 32768) % 65536 - 32768

/-! ## The data model of the specification -/

/-- The names of the specification's data model table, in the order of its
rows. -/
def specDataModel : List String :=
  [ "macAddress",
    "STEWITTER_TOKEN",
    "PACHUBE_API_KEY",
    "PACHUBE_ENVIRONMENT_ID",
    "UPDATE_INTERVAL_IN_MINUTE",
    "USUAL_CONSUMPTION",
    "TIME_ZONE_OFFSET" ]

/-- The named constants of the specification's data model: its rows other
than the `macAddress` array. -/
def specNamedConstants : List String :=
  specDataModel.filter (fun n => n != "macAddress")

/-! ## The conversions to the target's types -/

/-- A value converted to `byte` is in the byte range. -/
theorem toByte_lt (n : Nat) : toByte n < 256 := by
  unfold toByte
  omega

/-- A value converted to the 16-bit `int` is in the signed 16-bit range. -/
theorem toInt16_range (v : Int) : -32768 ≤ toInt16 v ∧ toInt16 v ≤ 32767 := by
  unfold toInt16
  omega

/-- The conversion to the 16-bit `int` leaves exactly the values of the
signed 16-bit range unchanged. -/
theorem toInt16_eq_self_iff (v : Int) :
    toInt16 v = v ↔ -32768 ≤ v ∧ v ≤ 32767 := by
  unfold toInt16
  omega

/-! ## The header text gives the values -/

/-- The only `byte` array the header declares is `macAddress`, with the
elements written out in `macAddress`. -/
theorem byteArrays_header :
    byteArrays PrivateSettings_h = [("macAddress", macAddress)] := by
  decide

/-- The definitions of the header, in source order, with the values written
out in the constants of this file. -/
theorem defines_header :
    defines PrivateSettings_h =
      [ ("STEWITTER_TOKEN", Literal.string STEWITTER_TOKEN),
        ("PACHUBE_API_KEY", Literal.string PACHUBE_API_KEY),
        ("PACHUBE_ENVIRONMENT_ID", Literal.integer 0),
        ("UPDATE_INTERVAL_IN_MINUTE", Literal.integer 5),
        ("USUAL_CONSUMPTION", Literal.integer 12000),
        ("TIME_ZONE_OFFSET", Literal.integer 9) ] := by
  decide

/-! ## The claims -/

/-- C1: the `macAddress` array of the header has exactly 6 elements, the
number of its initializers, and every element is in the byte range 0..255. -/
theorem macAddress_six_bytes :
    byteArrays PrivateSettings_h = [("macAddress", macAddress)] ∧
      macAddress.length = 6 ∧ ∀ b ∈ macAddress, 0 ≤ b ∧ b ≤ 255 := by
  decide

/-- C2, as stated, fails: the set of names the header introduces by `#define`
does not have five members (it is the set of named constants of the
specification's data model, which has six). -/
theorem defineNames_not_five :
    ¬ ((defineNames PrivateSettings_h).toFinset.card = 5 ∧
        (defineNames PrivateSettings_h).toFinset = specNamedConstants.toFinset) := by
  decide

/-- C2, amended: besides the `macAddress` array the header supplies exactly
six named constants: the names introduced by `#define` are pairwise distinct,
their set has exactly six members, and these are the named constants of the
specification's data model. -/
theorem defineNames_six :
    defineNames PrivateSettings_h =
        [ "STEWITTER_TOKEN", "PACHUBE_API_KEY", "PACHUBE_ENVIRONMENT_ID",
          "UPDATE_INTERVAL_IN_MINUTE", "USUAL_CONSUMPTION", "TIME_ZONE_OFFSET" ] ∧
      (defineNames PrivateSettings_h).Nodup ∧
      (defineNames PrivateSettings_h).toFinset.card = 6 ∧
      (defineNames PrivateSettings_h).toFinset = specNamedConstants.toFinset ∧
      (byteArrays PrivateSettings_h).map Prod.fst = ["macAddress"] := by
  decide

/-- C3: the shipped values are placeholders: every byte of `macAddress` is
`0x00`, and `STEWITTER_TOKEN` and `PACHUBE_API_KEY` are non-empty strings in
which every character is `A`. -/
theorem shipped_values_are_placeholders :
    (∀ b ∈ macAddress, b = 0x00) ∧
      stringConstant PrivateSettings_h "STEWITTER_TOKEN" = some STEWITTER_TOKEN ∧
      STEWITTER_TOKEN ≠ "" ∧ (∀ c ∈ STEWITTER_TOKEN.toList, c = 'A') ∧
      stringConstant PrivateSettings_h "PACHUBE_API_KEY" = some PACHUBE_API_KEY ∧
      PACHUBE_API_KEY ≠ "" ∧ (∀ c ∈ PACHUBE_API_KEY.toList, c = 'A') := by
  decide

/-- C4: each named constant resolves to a value of the type of the data
model: `STEWITTER_TOKEN` and `PACHUBE_API_KEY` are defined as string literals,
and `PACHUBE_ENVIRONMENT_ID`, `UPDATE_INTERVAL_IN_MINUTE`, `USUAL_CONSUMPTION`
and `TIME_ZONE_OFFSET` are defined as integer literals. -/
theorem constants_resolve_to_expected_type :
    stringConstant PrivateSettings_h "STEWITTER_TOKEN" = some STEWITTER_TOKEN ∧
      stringConstant PrivateSettings_h "PACHUBE_API_KEY" = some PACHUBE_API_KEY ∧
      integerConstant PrivateSettings_h "PACHUBE_ENVIRONMENT_ID"
        = some PACHUBE_ENVIRONMENT_ID ∧
      integerConstant PrivateSettings_h "UPDATE_INTERVAL_IN_MINUTE"
        = some UPDATE_INTERVAL_IN_MINUTE ∧
      integerConstant PrivateSettings_h "USUAL_CONSUMPTION" = some USUAL_CONSUMPTION ∧
      integerConstant PrivateSettings_h "TIME_ZONE_OFFSET" = some TIME_ZONE_OFFSET := by
  decide

/-- C5: the default `USUAL_CONSUMPTION` lies in the range its comment gives
as the Japanese average, 10000 to 12000 watt-hours. -/
theorem USUAL_CONSUMPTION_in_average_range :
    integerConstant PrivateSettings_h "USUAL_CONSUMPTION" = some USUAL_CONSUMPTION ∧
      10000 ≤ USUAL_CONSUMPTION ∧ USUAL_CONSUMPTION ≤ 12000 := by
  decide

/-- C6: the default `TIME_ZONE_OFFSET` is 9, the value its comment prescribes
for Japan. -/
theorem TIME_ZONE_OFFSET_is_japan :
    integerConstant PrivateSettings_h "TIME_ZONE_OFFSET" = some TIME_ZONE_OFFSET ∧
      TIME_ZONE_OFFSET = 9 := by
  decide

/-- C7: every integer constant of the header fits the 16-bit signed `int` of
the target: each value lies in -32768..32767, and reducing it modulo `2^16`
into the signed range leaves it unchanged. -/
theorem integer_constants_fit_int16 :
    integerConstants PrivateSettings_h =
        [ ("PACHUBE_ENVIRONMENT_ID", PACHUBE_ENVIRONMENT_ID),
          ("UPDATE_INTERVAL_IN_MINUTE", UPDATE_INTERVAL_IN_MINUTE),
          ("USUAL_CONSUMPTION", USUAL_CONSUMPTION),
          ("TIME_ZONE_OFFSET", TIME_ZONE_OFFSET) ] ∧
      ∀ v ∈ [PACHUBE_ENVIRONMENT_ID, UPDATE_INTERVAL_IN_MINUTE, USUAL_CONSUMPTION,
          TIME_ZONE_OFFSET],
        -32768 ≤ v ∧ v ≤ 32767 ∧ toInt16 v = v := by
  decide

/-- C8: the shipped tuning constants are in their meaningful ranges:
`UPDATE_INTERVAL_IN_MINUTE` and `USUAL_CONSUMPTION` are strictly positive, and
`TIME_ZONE_OFFSET` is a UTC offset in whole hours between -12 and 14. -/
theorem tuning_constants_in_range :
    integerConstant PrivateSettings_h "UPDATE_INTERVAL_IN_MINUTE"
        = some UPDATE_INTERVAL_IN_MINUTE ∧
      integerConstant PrivateSettings_h "USUAL_CONSUMPTION" = some USUAL_CONSUMPTION ∧
      integerConstant PrivateSettings_h "TIME_ZONE_OFFSET" = some TIME_ZONE_OFFSET ∧
      0 < UPDATE_INTERVAL_IN_MINUTE ∧ 0 < USUAL_CONSUMPTION ∧
      -12 ≤ TIME_ZONE_OFFSET ∧ TIME_ZONE_OFFSET ≤ 14 := by
  decide

end SetsudenNow
